import Mathlib

/-!
# upside_driver: the timer-driven GPIO toggle engine

A shallow embedding of `src/skywalker.c` and `src/pwm.c`.  Both files are Linux kernel
modules for an OMAP SoC: they claim a general purpose timer, register an interrupt
handler that toggles GPIO 121 on every timer overflow, and release everything on unload.

The drivers are written once, as programs over the kernel calls they issue
(`Prog`), and read in two ways: `run` executes a program to completion, `interleave`
executes it step by step with the interrupt handler firing in between.

Conventions.
* C integers are `Int`; `u32` and `i32` are the conversions to `uint32_t` / `unsigned int`
  and to `int` (32 bit on the target), applied where the C types of an assignment or of an
  argument differ.  Signed overflow wraps, as in a kernel build.  Pointers are `Int` with
  `0` for `NULL`.
* `printk` only writes to the kernel log and is left out.
* Constants of the kernel headers are the fields of `Kernel`.
* The timer, GPIO and interrupt services of the kernel are outside the repository; `HW`
  and `HW.apply` keep the books of what the module has obtained from them.
-/

namespace UpsideDriver

/-! ## Machine integers -/

/-- Conversion to `uint32_t`. -/
def u32 (x : Int) : Int := x % 2 ^ 32

/-- Conversion to (32 bit, two's complement) `int`. -/
def i32 (x : Int) : Int := (x + 2 ^ 31) % 2 ^ 32 - 2 ^ 31

/-- The C operator `!`. -/
def lnot (x : Int) : Int := if x = 0 then 1 else 0

/-- `#define TIMER_MAX 0xFFFFFFFF` (both drivers); an `unsigned int` literal. -/
def TIMER_MAX : Int := 0xFFFFFFFF

/-! ## The platform -/

/-- Constants of the kernel headers (`plat/dmtimer.h`, `linux/interrupt.h`), which are not
part of the repository: they are parameters of the development. -/
structure Kernel where
  OMAP_TIMER_INT_OVERFLOW : Int
  OMAP_TIMER_SRC_SYS_CLK : Int
  IRQF_DISABLED : Int
  IRQF_TIMER : Int
  IRQ_HANDLED : Int

/-- The kernel calls the drivers issue, with their arguments.  The handler and `dev_id`
arguments of `request_irq` / `free_irq` are always the module's `timer_irq_handler` and are
not recorded. -/
inductive Op where
  | omap_dm_timer_request
  | omap_dm_timer_set_source (timer source : Int)
  | omap_dm_timer_set_prescaler (timer prescaler : Int)
  | omap_dm_timer_get_irq (timer : Int)
  | request_irq (irq flags : Int) (name : String)
  | omap_dm_timer_get_fclk (timer : Int)
  | clk_get_rate (clk : Int)
  | omap_dm_timer_set_load (timer autoreload load : Int)
  | omap_dm_timer_set_match (timer enable mtch : Int)
  | omap_dm_timer_set_int_enable (timer value : Int)
  | omap_dm_timer_start (timer : Int)
  | omap_dm_timer_stop (timer : Int)
  | omap_dm_timer_free (timer : Int)
  | omap_dm_timer_write_status (timer value : Int)
  | omap_dm_timer_read_status (timer : Int)
  | free_irq (irq : Int)
  | gpio_is_valid (number : Int)
  | gpio_request (gpio : Int) (label : String)
  | gpio_direction_output (gpio value : Int)
  | gpio_set_value (gpio value : Int)
  | gpio_free (gpio : Int)
  deriving DecidableEq

/-- A platform behaviour: the value each kernel call returns.  For a call whose C type is
`void`, or whose result the driver drops, the value is ignored.  One behaviour covers one
run of a routine, in which no call is issued twice; separate runs (the start routine, each
delivery of the interrupt, the end routine) take separate behaviours. -/
abbrev Env := Op → Int

/-- What the module holds and what it has switched on: timer instances obtained and not
freed, interrupt lines with the module's handler registered, GPIO lines claimed, timers
whose interrupt is enabled, timers that are counting. -/
structure HW where
  timers : List Int
  irqs : List Int
  pins : List Int
  int_enabled : List Int
  running : List Int
  deriving DecidableEq

/-- Nothing held, nothing switched on. -/
def HW.idle : HW := ⟨[], [], [], [], []⟩

/-- Effect of one kernel call, given the value `r` it returned, on what the module holds.
A request that reports success acquires (`omap_dm_timer_request` a non-`NULL` instance,
`request_irq` and `gpio_request` the value 0), a free releases, enabling an interrupt mask
other than 0 and starting or stopping a timer switch it on or off, everything else leaves
the books alone. -/
def HW.apply (h : HW) (o : Op) (r : Int) : HW :=
  match o with
  | .omap_dm_timer_request => { h with timers := if r = 0 then h.timers else r :: h.timers }
  | .omap_dm_timer_free t => { h with timers := h.timers.filter (· ≠ t) }
  | .request_irq irq _ _ => { h with irqs := if r = 0 then irq :: h.irqs else h.irqs }
  | .free_irq irq => { h with irqs := h.irqs.filter (· ≠ irq) }
  | .gpio_request n _ => { h with pins := if r = 0 then n :: h.pins else h.pins }
  | .gpio_free n => { h with pins := h.pins.filter (· ≠ n) }
  | .omap_dm_timer_set_int_enable t v =>
      { h with int_enabled := if v = 0 then h.int_enabled.filter (· ≠ t) else t :: h.int_enabled }
  | .omap_dm_timer_start t => { h with running := t :: h.running }
  | .omap_dm_timer_stop t => { h with running := h.running.filter (· ≠ t) }
  | _ => h

/-- The interrupt handler can fire: it is registered on some line, and some timer has its
interrupt enabled and is counting. -/
def HW.can_fire (h : HW) : Bool :=
  !h.irqs.isEmpty && h.running.any (fun t => decide (t ∈ h.int_enabled))

/-- State of the machine: the module's static data `g`, what the module holds, and the
kernel calls issued so far, oldest first. -/
structure World (G : Type) where
  g : G
  hw : HW
  trace : List Op

/-- Record one kernel call and its effect. -/
def World.record {G : Type} (w : World G) (o : Op) (r : Int) : World G :=
  { w with hw := w.hw.apply o r, trace := w.trace ++ [o] }

/-! ## Programs -/

/-- Driver code: a tree of kernel calls and accesses to the module's static data.
`trap` is a division by zero. -/
inductive Prog (G : Type) (α : Type) where
  | ret (a : α)
  | call (o : Op) (k : Int → Prog G α)
  | load (k : G → Prog G α)
  | store (f : G → G) (k : Prog G α)
  | trap

namespace Prog

/-- Sequencing. -/
def bind {G α β : Type} : Prog G α → (α → Prog G β) → Prog G β
  | .ret a, f => f a
  | .call o k, f => .call o (fun r => bind (k r) f)
  | .load k, f => .load (fun g => bind (k g) f)
  | .store u k, f => .store u (bind k f)
  | .trap, _ => .trap

instance {G : Type} : Monad (Prog G) where
  pure := .ret
  bind := Prog.bind

end Prog

/-- Issue a kernel call and get its return value. -/
def call {G : Type} (o : Op) : Prog G Int := .call o .ret

/-- Read the module's static data. -/
def getG {G : Type} : Prog G G := .load .ret

/-- Update the module's static data. -/
def modifyG {G : Type} (f : G → G) : Prog G Unit := .store f (.ret ())

/-- Run a program to completion under platform behaviour `env`; `none` on a trap. -/
def run {G α : Type} (env : Env) : Prog G α → World G → Option (α × World G)
  | .ret a, w => some (a, w)
  | .call o k, w => run env (k (env o)) (w.record o (env o))
  | .load k, w => run env (k w.g) w
  | .store f k, w => run env k { w with g := f w.g }
  | .trap, _ => none

/-- One step of a program; `none` when it has finished or trapped. -/
def step {G α : Type} (env : Env) : Prog G α → World G → Option (Prog G α × World G)
  | .ret _, _ => none
  | .call o k, w => some (k (env o), w.record o (env o))
  | .load k, w => some (k w.g, w)
  | .store f k, w => some (k, { w with g := f w.g })
  | .trap, _ => none

/-! ## skywalker.c -/

namespace Skywalker

/-- `struct skywalker_data` (skywalker.h); every field is a `uint32_t`. -/
structure skywalker_data where
  frequency : Int
  pin : Int
  timer_rate : Int
  adc_clk_val : Int
  load : Int
  deriving DecidableEq

/-- The static data of the module: `timer_ptr`, `timer_irq` (skywalker.h) and `sky_ptr`
(skywalker.c). -/
structure Globals where
  timer_ptr : Int
  timer_irq : Int
  sky_ptr : skywalker_data
  deriving DecidableEq

/-- Static data of a freshly loaded module: zero-initialised. -/
def Globals.zero : Globals := ⟨0, 0, ⟨0, 0, 0, 0, 0⟩⟩

/-- `static void timer_handler(void)`, skywalker.c:19. -/
def timer_handler (K : Kernel) : Prog Globals Unit := do
  let g ← getG
  let _ ← call (.omap_dm_timer_write_status g.timer_ptr K.OMAP_TIMER_INT_OVERFLOW)
  let g ← getG
  let _ ← call (.omap_dm_timer_read_status g.timer_ptr)
  let g ← getG
  let _ ← call (.gpio_set_value g.sky_ptr.pin (i32 g.sky_ptr.adc_clk_val))
  modifyG fun g => { g with sky_ptr.adc_clk_val := lnot g.sky_ptr.adc_clk_val }

/-- `static irqreturn_t timer_irq_handler(int irq, void *dev_id)`, skywalker.c:30. -/
def timer_irq_handler (K : Kernel) : Prog Globals Int := do
  timer_handler K
  pure K.IRQ_HANDLED

/-- `static int set_clk_freq(int freq)`, skywalker.c:37.  `4*freq` is an `int` product,
converted to `unsigned` for the division by the usual arithmetic conversions. -/
def set_clk_freq (freq : Int) : Prog Globals Int := do
  let g ← getG
  let d := u32 (i32 (4 * freq))
  if d = 0 then .trap else do
  let period := u32 (g.sky_ptr.timer_rate / d)
  let load := u32 (u32 (TIMER_MAX + 1) - period)
  let g ← getG
  let _ ← call (.omap_dm_timer_set_load g.timer_ptr 1 load)
  modifyG fun g => { g with sky_ptr.frequency := u32 freq }
  modifyG fun g => { g with sky_ptr.load := load }
  pure 0

/-- `static int gpio_setup_pin(uint32_t gpio_number)`, skywalker.c:50. -/
def gpio_setup_pin (gpio_number : Int) : Prog Globals Int := do
  let valid ← call (.gpio_is_valid (i32 gpio_number))
  if valid ≠ 0 then do
    let err ← call (.gpio_request gpio_number "skyIRQ")
    if err ≠ 0 then pure (-1) else do
    let err ← call (.gpio_direction_output gpio_number 0)
    if err ≠ 0 then pure (-1) else do
    modifyG fun g => { g with sky_ptr.pin := gpio_number }
    pure 0
  else
    pure (-1)

/-- `static int __init skywalker_start(void)`, skywalker.c:80. -/
def skywalker_start (K : Kernel) : Prog Globals Int := do
  let t ← call .omap_dm_timer_request
  modifyG fun g => { g with timer_ptr := t }
  let g ← getG
  if g.timer_ptr = 0 then pure (-1) else do
  let g ← getG
  let rv ← call (.omap_dm_timer_set_source g.timer_ptr K.OMAP_TIMER_SRC_SYS_CLK)
  if rv ≠ 0 then pure rv else do
  let g ← getG
  let _ ← call (.omap_dm_timer_set_prescaler g.timer_ptr 0)
  let g ← getG
  let irq ← call (.omap_dm_timer_get_irq g.timer_ptr)
  modifyG fun g => { g with timer_irq := irq }
  let g ← getG
  let rv ← call (.request_irq (u32 g.timer_irq) (Int.lor K.IRQF_DISABLED K.IRQF_TIMER) "skywalker")
  if rv ≠ 0 then pure rv else do
  let g ← getG
  let timer_fclk ← call (.omap_dm_timer_get_fclk g.timer_ptr)
  let rate ← call (.clk_get_rate timer_fclk)
  let gt_rate := u32 rate
  modifyG fun g => { g with sky_ptr.timer_rate := gt_rate }
  let _ ← set_clk_freq 1000
  let g ← getG
  let _ ← call (.omap_dm_timer_set_int_enable g.timer_ptr K.OMAP_TIMER_INT_OVERFLOW)
  let g ← getG
  let _ ← call (.omap_dm_timer_start g.timer_ptr)
  let _ ← gpio_setup_pin 121
  modifyG fun g => { g with sky_ptr.pin := 121 }
  modifyG fun g => { g with sky_ptr.adc_clk_val := 1 }
  pure 0

/-- `static void __exit skywalker_end(void)`, skywalker.c:141. -/
def skywalker_end : Prog Globals Unit := do
  let g ← getG
  let _ ← call (.omap_dm_timer_stop g.timer_ptr)
  let g ← getG
  let _ ← call (.free_irq (u32 g.timer_irq))
  let g ← getG
  let _ ← call (.omap_dm_timer_free g.timer_ptr)
  let g ← getG
  let _ ← call (.gpio_free g.sky_ptr.pin)
  pure ()

end Skywalker

/-! ## pwm.c -/

namespace Pwm

/-- Modelled from the spec: `pwm.h` is not among the sources.  The spec describes the two
drivers as instances of one design with one runtime state, so `struct pwm_data` is taken to
mirror `struct skywalker_data` (fields of type `uint32_t`), with the `dutycycle` field that
pwm.c assigns and without the level, which pwm.c keeps in the separate variable `clk_val`. -/
structure pwm_data where
  frequency : Int
  pin : Int
  timer_rate : Int
  load : Int
  dutycycle : Int
  deriving DecidableEq

/-- The static data of the module: `timer_ptr`, `timer_irq`, `clk_val` (declared in the
missing `pwm.h`, typed as their counterparts of skywalker.h) and `pwm_data_ptr` (pwm.c). -/
structure Globals where
  timer_ptr : Int
  timer_irq : Int
  clk_val : Int
  pwm_data_ptr : pwm_data
  deriving DecidableEq

/-- Static data of a freshly loaded module: zero-initialised. -/
def Globals.zero : Globals := ⟨0, 0, 0, ⟨0, 0, 0, 0, 0⟩⟩

/-- `static void timer_handler(void)`, pwm.c:23. -/
def timer_handler (K : Kernel) : Prog Globals Unit := do
  let g ← getG
  let _ ← call (.omap_dm_timer_write_status g.timer_ptr K.OMAP_TIMER_INT_OVERFLOW)
  let g ← getG
  let _ ← call (.omap_dm_timer_read_status g.timer_ptr)
  let g ← getG
  let _ ← call (.gpio_set_value g.pwm_data_ptr.pin (i32 g.clk_val))
  modifyG fun g => { g with clk_val := lnot g.clk_val }

/-- `static irqreturn_t timer_irq_handler(int irq, void *dev_id)`, pwm.c:34. -/
def timer_irq_handler (K : Kernel) : Prog Globals Int := do
  timer_handler K
  pure K.IRQ_HANDLED

/-- `static int set_pwm_freq(int freq)`, pwm.c:41. -/
def set_pwm_freq (freq : Int) : Prog Globals Int := do
  let g ← getG
  let d := u32 (i32 (4 * freq))
  if d = 0 then .trap else do
  let period := u32 (g.pwm_data_ptr.timer_rate / d)
  let load := u32 (u32 (TIMER_MAX + 1) - period)
  let g ← getG
  let _ ← call (.omap_dm_timer_set_load g.timer_ptr 1 load)
  modifyG fun g => { g with pwm_data_ptr.frequency := u32 freq }
  modifyG fun g => { g with pwm_data_ptr.load := load }
  pure 0

/-- `static int set_pwm_dutycycle(uint32_t pin, int dutycycle)`, pwm.c:54.  The local `val`
is computed and never used. -/
def set_pwm_dutycycle (_pin : Int) (dutycycle : Int) : Prog Globals Int := do
  let g ← getG
  let _val := u32 (u32 (TIMER_MAX + 1) - 2 * g.pwm_data_ptr.load)
  let g ← getG
  let _ ← call (.omap_dm_timer_set_match g.timer_ptr 1 (u32 (g.pwm_data_ptr.load - 0x100)))
  modifyG fun g => { g with pwm_data_ptr.dutycycle := u32 dutycycle }
  pure 0

/-- `static int pwm_setup_pin(uint32_t gpio_number)`, pwm.c:63. -/
def pwm_setup_pin (gpio_number : Int) : Prog Globals Int := do
  let valid ← call (.gpio_is_valid (i32 gpio_number))
  if valid ≠ 0 then do
    let err ← call (.gpio_request gpio_number "pwmIRQ")
    if err ≠ 0 then pure (-1) else do
    let err ← call (.gpio_direction_output gpio_number 0)
    if err ≠ 0 then pure (-1) else do
    modifyG fun g => { g with pwm_data_ptr.pin := gpio_number }
    pure 0
  else
    pure (-1)

/-- `static int __init pwm_start(void)`, pwm.c:93. -/
def pwm_start (K : Kernel) : Prog Globals Int := do
  let t ← call .omap_dm_timer_request
  modifyG fun g => { g with timer_ptr := t }
  let g ← getG
  if g.timer_ptr = 0 then pure (-1) else do
  let g ← getG
  let rv ← call (.omap_dm_timer_set_source g.timer_ptr K.OMAP_TIMER_SRC_SYS_CLK)
  if rv ≠ 0 then pure rv else do
  let g ← getG
  let _ ← call (.omap_dm_timer_set_prescaler g.timer_ptr 0)
  let g ← getG
  let irq ← call (.omap_dm_timer_get_irq g.timer_ptr)
  modifyG fun g => { g with timer_irq := irq }
  let g ← getG
  let rv ← call (.request_irq (u32 g.timer_irq) (Int.lor K.IRQF_DISABLED K.IRQF_TIMER) "pwm")
  if rv ≠ 0 then pure rv else do
  let g ← getG
  let timer_fclk ← call (.omap_dm_timer_get_fclk g.timer_ptr)
  let rate ← call (.clk_get_rate timer_fclk)
  let gt_rate := u32 rate
  modifyG fun g => { g with pwm_data_ptr.timer_rate := gt_rate }
  let _ ← set_pwm_freq 1000
  let g ← getG
  let _ ← call (.omap_dm_timer_set_int_enable g.timer_ptr K.OMAP_TIMER_INT_OVERFLOW)
  let g ← getG
  let _ ← call (.omap_dm_timer_start g.timer_ptr)
  let _ ← pwm_setup_pin 121
  modifyG fun g => { g with pwm_data_ptr.pin := 121 }
  let _ ← set_pwm_dutycycle 1 150
  modifyG fun g => { g with clk_val := 1 }
  pure 0

/-- `static void __exit pwm_end(void)`, pwm.c:156. -/
def pwm_end : Prog Globals Unit := do
  let g ← getG
  let _ ← call (.omap_dm_timer_stop g.timer_ptr)
  let g ← getG
  let _ ← call (.free_irq (u32 g.timer_irq))
  let g ← getG
  let _ ← call (.omap_dm_timer_free g.timer_ptr)
  let g ← getG
  let _ ← call (.gpio_free g.pwm_data_ptr.pin)
  pure ()

end Pwm

/-! ## The lifecycle and the interrupt -/

/-- State after `n` deliveries of the interrupt, the `k`-th of them (counted from 0) under
platform behaviour `envs k`. -/
def fire {G : Type} (handler : Prog G Int) (envs : Nat → Env) : Nat → World G → Option (World G)
  | 0, w => some w
  | n + 1, w => (fire handler envs n w).bind fun w' => (run (envs n) handler w').map (·.2)

/-- Who runs next, and how the platform answers meanwhile: the load/unload path takes one
step, or the interrupt is delivered and the handler runs to completion. -/
inductive Tick where
  | main (env : Env)
  | irq (env : Env)

/-- Execution of the load/unload path `p` with the interrupt handler in between, along a
schedule.  The interrupt is delivered only where `HW.can_fire` holds; a tick that cannot
happen is skipped. -/
def interleave {G α : Type} (handler : Prog G Int) :
    List Tick → Prog G α → World G → Prog G α × World G
  | [], p, w => (p, w)
  | .main env :: s, p, w =>
      match step env p w with
      | some (p', w') => interleave handler s p' w'
      | none => interleave handler s p w
  | .irq env :: s, p, w =>
      if w.hw.can_fire then
        match run env handler w with
        | some (_, w') => interleave handler s p w'
        | none => interleave handler s p w
      else interleave handler s p w

/-! ## Sample platform -/

/-- Header values of the 2.6.3x OMAP kernels, for the concrete runs. -/
def linuxOmap : Kernel := ⟨2, 0, 0x20, 0x200, 1⟩

/-- The platform on which every call succeeds: timer instance 7 on interrupt line 38, a
32 MHz functional clock, and every GPIO number valid. -/
def envOk : Env := fun o =>
  match o with
  | .omap_dm_timer_request => 7
  | .omap_dm_timer_get_irq _ => 38
  | .omap_dm_timer_get_fclk _ => 9
  | .clk_get_rate _ => 32000000
  | .gpio_is_valid _ => 1
  | _ => 0

/-- The platform `base`, except that the call `o` returns `r`. -/
def Env.answering (base : Env) (o : Op) (r : Int) : Env := fun o' => if o' = o then r else base o'

/-- A freshly loaded skywalker module on an idle platform. -/
def Skywalker.fresh : World Skywalker.Globals := ⟨Skywalker.Globals.zero, HW.idle, []⟩

/-- A freshly loaded pwm module on an idle platform. -/
def Pwm.fresh : World Pwm.Globals := ⟨Pwm.Globals.zero, HW.idle, []⟩

/-- The world a start routine of skywalker.c leaves on the sample platform. -/
def Skywalker.started : World Skywalker.Globals :=
  { g := ⟨7, 38, ⟨1000, 121, 32000000, 1, 4294959296⟩⟩
    hw := ⟨[7], [38], [121], [7], [7]⟩
    trace :=
      [.omap_dm_timer_request, .omap_dm_timer_set_source 7 0, .omap_dm_timer_set_prescaler 7 0,
       .omap_dm_timer_get_irq 7, .request_irq 38 544 "skywalker", .omap_dm_timer_get_fclk 7,
       .clk_get_rate 9, .omap_dm_timer_set_load 7 1 4294959296,
       .omap_dm_timer_set_int_enable 7 2, .omap_dm_timer_start 7, .gpio_is_valid 121,
       .gpio_request 121 "skyIRQ", .gpio_direction_output 121 0] }

/-- Proof device: `Always H Good p w` says that `Good` holds in every state the program `p`
passes through from `w`, for every answer of the platform, when before each step the
world may have moved along `H` (the changes the interrupt handler makes). -/
def Always {G α : Type} (H : World G → World G → Prop) (Good : World G → Prop) :
    Prog G α → World G → Prop
  | .ret _, w => ∀ w', H w w' → Good w'
  | .call o k, w => ∀ w', H w w' → Good w' ∧ ∀ r, Always H Good (k r) (w'.record o r)
  | .load k, w => ∀ w', H w w' → Good w' ∧ Always H Good (k w'.g) w'
  | .store f k, w => ∀ w', H w w' → Good w' ∧ Always H Good k { w' with g := f w'.g }
  | .trap, w => ∀ w', H w w' → Good w'

/-- Two worlds with the same static data and the same holdings, in both of which, or in
neither of which, the output configuration of pin 121 has been issued. -/
def Sim {G : Type} (a b : World G) : Prop :=
  a.g = b.g ∧ a.hw = b.hw ∧
    (Op.gpio_direction_output 121 0 ∈ a.trace ↔ Op.gpio_direction_output 121 0 ∈ b.trace)

/-- The monadic bind of programs is `Prog.bind`. -/
@[simp] theorem Prog.bind_eq {G α β : Type} (x : Prog G α) (f : α → Prog G β) :
    x >>= f = Prog.bind x f := rfl

/-- The monadic unit of programs is `Prog.ret`. -/
@[simp] theorem Prog.pure_eq {G α : Type} (a : α) : (pure a : Prog G α) = .ret a := rfl

/-- A value in the range of `uint32_t` converts to itself. -/
theorem u32_of_range {x : Int} (h0 : 0 ≤ x) (h1 : x < 2 ^ 32) : u32 x = x := by
  unfold u32; omega

/-- A value in the range of `int` converts to itself. -/
theorem i32_of_range {x : Int} (h0 : -2 ^ 31 ≤ x) (h1 : x < 2 ^ 31) : i32 x = x := by
  unfold i32; omega

/-- The reload value `TIMER_MAX+1 - period` in `unsigned` arithmetic. -/
theorem u32_neg_period (p : Int) :
    u32 (u32 (TIMER_MAX + 1) - p) = (2 ^ 32 - p) % 2 ^ 32 := by
  unfold u32 TIMER_MAX; omega

/-- The divisor `4*1000` of the start routines. -/
theorem u32_i32_4000 : u32 (i32 4000) = 4000 := by decide

/-- Pin 121 as an `int`. -/
theorem i32_121 : i32 121 = 121 := by decide

/-- One run of the skywalker interrupt handler, in closed form. -/
theorem Skywalker.sky_run_timer_irq_handler (K : Kernel) (env : Env) (w : World Globals) :
    run env (timer_irq_handler K) w = some (K.IRQ_HANDLED,
      { g := { w.g with sky_ptr.adc_clk_val := lnot w.g.sky_ptr.adc_clk_val }
        hw := w.hw
        trace := w.trace ++
          [.omap_dm_timer_write_status w.g.timer_ptr K.OMAP_TIMER_INT_OVERFLOW,
           .omap_dm_timer_read_status w.g.timer_ptr,
           .gpio_set_value w.g.sky_ptr.pin (i32 w.g.sky_ptr.adc_clk_val)] }) := by
  simp [timer_irq_handler, timer_handler, run, Prog.bind, call, getG, modifyG, World.record,
    HW.apply]

/-- One run of the pwm interrupt handler, in closed form. -/
theorem Pwm.pwm_run_timer_irq_handler (K : Kernel) (env : Env) (w : World Globals) :
    run env (timer_irq_handler K) w = some (K.IRQ_HANDLED,
      { g := { w.g with clk_val := lnot w.g.clk_val }
        hw := w.hw
        trace := w.trace ++
          [.omap_dm_timer_write_status w.g.timer_ptr K.OMAP_TIMER_INT_OVERFLOW,
           .omap_dm_timer_read_status w.g.timer_ptr,
           .gpio_set_value w.g.pwm_data_ptr.pin (i32 w.g.clk_val)] }) := by
  simp [timer_irq_handler, timer_handler, run, Prog.bind, call, getG, modifyG, World.record,
    HW.apply]

/-- Negating the level 1 `n` times gives 1 for even `n` and 0 for odd `n`. -/
theorem lnot_iterate_one (n : Nat) : lnot^[n] 1 = if n % 2 = 0 then 1 else 0 := by
  induction n with
  | zero => rfl
  | succ n ih =>
    rw [Function.iterate_succ_apply', ih]
    by_cases h : n % 2 = 0
    · have : (n + 1) % 2 ≠ 0 := by omega
      simp [h, this, lnot]
    · have : (n + 1) % 2 = 0 := by omega
      simp [h, this, lnot]

/-- Deliveries of the interrupt always complete, and change only the trace and the level
(skywalker). -/
theorem Skywalker.sky_fire_spec (K : Kernel) (envs : Nat → Env) (n : Nat) (w : World Globals) :
    ∃ w', fire (timer_irq_handler K) envs n w = some w' ∧ w'.hw = w.hw ∧
      w'.g.timer_ptr = w.g.timer_ptr ∧ w'.g.timer_irq = w.g.timer_irq ∧
      w'.g.sky_ptr.pin = w.g.sky_ptr.pin ∧
      w'.g.sky_ptr.adc_clk_val = lnot^[n] w.g.sky_ptr.adc_clk_val := by
  induction n with
  | zero => exact ⟨w, rfl, rfl, rfl, rfl, rfl, rfl⟩
  | succ n ih =>
    obtain ⟨w', h, h1, h2, h3, h4, h5⟩ := ih
    refine ⟨_, by simp [fire, h, sky_run_timer_irq_handler]; rfl, ?_⟩
    simp [h1, h2, h3, h4, h5, Function.iterate_succ_apply']

/-- Deliveries of the interrupt always complete, and change only the trace and the level
(pwm). -/
theorem Pwm.pwm_fire_spec (K : Kernel) (envs : Nat → Env) (n : Nat) (w : World Globals) :
    ∃ w', fire (timer_irq_handler K) envs n w = some w' ∧ w'.hw = w.hw ∧
      w'.g.timer_ptr = w.g.timer_ptr ∧ w'.g.timer_irq = w.g.timer_irq ∧
      w'.g.pwm_data_ptr.pin = w.g.pwm_data_ptr.pin ∧
      w'.g.clk_val = lnot^[n] w.g.clk_val := by
  induction n with
  | zero => exact ⟨w, rfl, rfl, rfl, rfl, rfl, rfl⟩
  | succ n ih =>
    obtain ⟨w', h, h1, h2, h3, h4, h5⟩ := ih
    refine ⟨_, by simp [fire, h, pwm_run_timer_irq_handler]; rfl, ?_⟩
    simp [h1, h2, h3, h4, h5, Function.iterate_succ_apply']

/-- What `skywalker_start` has done when it returns 0. -/
theorem Skywalker.sky_start_ok {K : Kernel} {env : Env} {w w1 : World Globals}
    (h : run env (skywalker_start K) w = some (0, w1)) :
    env .omap_dm_timer_request ≠ 0 ∧
    w1.g.timer_ptr = env .omap_dm_timer_request ∧
    w1.g.timer_irq = env (.omap_dm_timer_get_irq (env .omap_dm_timer_request)) ∧
    w1.g.sky_ptr.pin = 121 ∧ w1.g.sky_ptr.adc_clk_val = 1 ∧
    w1.hw.timers = env .omap_dm_timer_request :: w.hw.timers ∧
    w1.hw.irqs = u32 (env (.omap_dm_timer_get_irq (env .omap_dm_timer_request))) :: w.hw.irqs ∧
    (w1.hw.pins = w.hw.pins ∨ w1.hw.pins = 121 :: w.hw.pins) := by
  by_cases h1 : env .omap_dm_timer_request = 0
  · simp [skywalker_start, run, Prog.bind, call, getG, modifyG, World.record, h1] at h
  by_cases h2 : env (.omap_dm_timer_set_source (env .omap_dm_timer_request)
      K.OMAP_TIMER_SRC_SYS_CLK) = 0
  swap
  · simp [skywalker_start, run, Prog.bind, call, getG, modifyG, World.record, h1, h2] at h
  by_cases h3 : env (.request_irq (u32 (env (.omap_dm_timer_get_irq (env .omap_dm_timer_request))))
      (Int.lor K.IRQF_DISABLED K.IRQF_TIMER) "skywalker") = 0
  swap
  · simp [skywalker_start, run, Prog.bind, call, getG, modifyG, World.record, h1, h2, h3] at h
  by_cases hv : env (.gpio_is_valid 121) = 0 <;>
  by_cases hr : env (.gpio_request 121 "skyIRQ") = 0 <;>
  by_cases hd : env (.gpio_direction_output 121 0) = 0 <;>
  · simp [skywalker_start, set_clk_freq, gpio_setup_pin, run, Prog.bind, call, getG, modifyG,
      World.record, HW.apply, h1, h2, h3, hv, hr, hd, u32_i32_4000, i32_121] at h
    subst h
    simp [h1]

/-- What `pwm_start` has done when it returns 0. -/
theorem Pwm.pwm_start_ok {K : Kernel} {env : Env} {w w1 : World Globals}
    (h : run env (pwm_start K) w = some (0, w1)) :
    env .omap_dm_timer_request ≠ 0 ∧
    w1.g.timer_ptr = env .omap_dm_timer_request ∧
    w1.g.timer_irq = env (.omap_dm_timer_get_irq (env .omap_dm_timer_request)) ∧
    w1.g.pwm_data_ptr.pin = 121 ∧ w1.g.clk_val = 1 ∧
    w1.hw.timers = env .omap_dm_timer_request :: w.hw.timers ∧
    w1.hw.irqs = u32 (env (.omap_dm_timer_get_irq (env .omap_dm_timer_request))) :: w.hw.irqs ∧
    (w1.hw.pins = w.hw.pins ∨ w1.hw.pins = 121 :: w.hw.pins) := by
  by_cases h1 : env .omap_dm_timer_request = 0
  · simp [pwm_start, run, Prog.bind, call, getG, modifyG, World.record, h1] at h
  by_cases h2 : env (.omap_dm_timer_set_source (env .omap_dm_timer_request)
      K.OMAP_TIMER_SRC_SYS_CLK) = 0
  swap
  · simp [pwm_start, run, Prog.bind, call, getG, modifyG, World.record, h1, h2] at h
  by_cases h3 : env (.request_irq (u32 (env (.omap_dm_timer_get_irq (env .omap_dm_timer_request))))
      (Int.lor K.IRQF_DISABLED K.IRQF_TIMER) "pwm") = 0
  swap
  · simp [pwm_start, run, Prog.bind, call, getG, modifyG, World.record, h1, h2, h3] at h
  by_cases hv : env (.gpio_is_valid 121) = 0 <;>
  by_cases hr : env (.gpio_request 121 "pwmIRQ") = 0 <;>
  by_cases hd : env (.gpio_direction_output 121 0) = 0 <;>
  · simp [pwm_start, set_pwm_freq, pwm_setup_pin, set_pwm_dutycycle, run, Prog.bind, call, getG,
      modifyG, World.record, HW.apply, h1, h2, h3, hv, hr, hd, u32_i32_4000, i32_121] at h
    subst h
    simp [h1]

/-- The run of `skywalker_end`, in closed form. -/
theorem Skywalker.run_skywalker_end (env : Env) (w : World Globals) :
    run env skywalker_end w = some ((),
      { g := w.g
        hw := { timers := w.hw.timers.filter (· ≠ w.g.timer_ptr)
                irqs := w.hw.irqs.filter (· ≠ u32 w.g.timer_irq)
                pins := w.hw.pins.filter (· ≠ w.g.sky_ptr.pin)
                int_enabled := w.hw.int_enabled
                running := w.hw.running.filter (· ≠ w.g.timer_ptr) }
        trace := w.trace ++
          [.omap_dm_timer_stop w.g.timer_ptr, .free_irq (u32 w.g.timer_irq),
           .omap_dm_timer_free w.g.timer_ptr, .gpio_free w.g.sky_ptr.pin] }) := by
  simp [skywalker_end, run, Prog.bind, call, getG, World.record, HW.apply]

/-- The run of `pwm_end`, in closed form. -/
theorem Pwm.run_pwm_end (env : Env) (w : World Globals) :
    run env pwm_end w = some ((),
      { g := w.g
        hw := { timers := w.hw.timers.filter (· ≠ w.g.timer_ptr)
                irqs := w.hw.irqs.filter (· ≠ u32 w.g.timer_irq)
                pins := w.hw.pins.filter (· ≠ w.g.pwm_data_ptr.pin)
                int_enabled := w.hw.int_enabled
                running := w.hw.running.filter (· ≠ w.g.timer_ptr) }
        trace := w.trace ++
          [.omap_dm_timer_stop w.g.timer_ptr, .free_irq (u32 w.g.timer_irq),
           .omap_dm_timer_free w.g.timer_ptr, .gpio_free w.g.pwm_data_ptr.pin] }) := by
  simp [pwm_end, run, Prog.bind, call, getG, World.record, HW.apply]

/-! ## Interleaving lemmas -/

/-- `Always` holds of the present state. -/
theorem Always.here {G α : Type} {H : World G → World G → Prop} {Good : World G → Prop}
    (hrefl : ∀ w, H w w) {p : Prog G α} {w : World G} (h : Always H Good p w) : Good w := by
  cases p with
  | ret a => exact h w (hrefl w)
  | call o k => exact (h w (hrefl w)).1
  | load k => exact (h w (hrefl w)).1
  | store f k => exact (h w (hrefl w)).1
  | trap => exact h w (hrefl w)

/-- `Always` survives a change along `H`. -/
theorem Always.move {G α : Type} {H : World G → World G → Prop} {Good : World G → Prop}
    (htrans : ∀ a b c, H a b → H b c → H a c) {p : Prog G α} {w w' : World G}
    (h : Always H Good p w) (hw : H w w') : Always H Good p w' := by
  cases p with
  | ret a => exact fun w'' h' => h w'' (htrans _ _ _ hw h')
  | call o k => exact fun w'' h' => h w'' (htrans _ _ _ hw h')
  | load k => exact fun w'' h' => h w'' (htrans _ _ _ hw h')
  | store f k => exact fun w'' h' => h w'' (htrans _ _ _ hw h')
  | trap => exact fun w'' h' => h w'' (htrans _ _ _ hw h')

/-- `Always` gives `Good` at the end of every schedule: a step of the program moves to the
continuation, a delivery of the interrupt moves along `H`. -/
theorem Always.interleave {G α : Type} {H : World G → World G → Prop} {Good : World G → Prop}
    (handler : Prog G Int) (hrefl : ∀ w, H w w) (htrans : ∀ a b c, H a b → H b c → H a c)
    (hh : ∀ env w r w', run env handler w = some (r, w') → H w w')
    (s : List Tick) (p : Prog G α) (w : World G) (h : Always H Good p w) :
    Good (UpsideDriver.interleave handler s p w).2 := by
  induction s generalizing p w with
  | nil => exact h.here hrefl
  | cons t s ih =>
    cases t with
    | main env =>
      cases p with
      | ret a => exact ih _ _ h
      | call o k => exact ih _ _ ((h w (hrefl w)).2 (env o))
      | load k => exact ih _ _ (h w (hrefl w)).2
      | store f k => exact ih _ _ (h w (hrefl w)).2
      | trap => exact ih _ _ h
    | irq env =>
      unfold UpsideDriver.interleave
      split
      · split
        · next _ w' hr => exact ih _ _ (h.move htrans (hh _ _ _ _ hr))
        · exact ih _ _ h
      · exact ih _ _ h

/-- `Sim` survives a kernel call with the same answer. -/
theorem Sim.record {G : Type} {a b : World G} (h : Sim a b) (o : Op) (r : Int) :
    Sim (a.record o r) (b.record o r) := by
  obtain ⟨hg, hh, ht⟩ := h
  refine ⟨hg, ?_, ?_⟩
  · simp [World.record, hh]
  · simp [World.record, List.mem_append, ht]

/-- `Sim` survives a write of the static data. -/
theorem Sim.store {G : Type} {a b : World G} (h : Sim a b) (f : G → G) :
    Sim { a with g := f a.g } { b with g := f b.g } := by
  obtain ⟨hg, hh, ht⟩ := h
  exact ⟨by simp [hg], hh, ht⟩

section AlwaysUnfold

variable {G α : Type} {H : World G → World G → Prop} {Good : World G → Prop}
  {P : World G → Int → World G}

end AlwaysUnfold

/-- C1. For every timer input clock rate `rate` (a `uint32_t`) and every frequency
`freq > 0` whose product `4*freq` does not overflow `int`, `set_clk_freq` / `set_pwm_freq`
return 0, program the load register (autoreload on) with
`(2^32 - rate / (4*freq)) mod 2^32` and store that value and `freq`; at 32 MHz and 1000 Hz
the period is 8000 and the load 4294959296 = 0xFFFFE0C0.  (The bound `4*freq <= rate` of
the claim is not needed.) -/
theorem C1_freq_to_load (env : Env) :
    (∀ rate freq : Int, 0 ≤ rate ∧ rate < 2 ^ 32 → 0 < freq → 4 * freq < 2 ^ 31 →
      (∀ w : World Skywalker.Globals, w.g.sky_ptr.timer_rate = rate →
        ∃ w', run env (Skywalker.set_clk_freq freq) w = some (0, w') ∧
          w'.g.sky_ptr.load = (2 ^ 32 - rate / (4 * freq)) % 2 ^ 32 ∧
          w'.g.sky_ptr.frequency = freq ∧
          w'.trace = w.trace ++
            [.omap_dm_timer_set_load w.g.timer_ptr 1 ((2 ^ 32 - rate / (4 * freq)) % 2 ^ 32)]) ∧
      (∀ w : World Pwm.Globals, w.g.pwm_data_ptr.timer_rate = rate →
        ∃ w', run env (Pwm.set_pwm_freq freq) w = some (0, w') ∧
          w'.g.pwm_data_ptr.load = (2 ^ 32 - rate / (4 * freq)) % 2 ^ 32 ∧
          w'.g.pwm_data_ptr.frequency = freq ∧
          w'.trace = w.trace ++
            [.omap_dm_timer_set_load w.g.timer_ptr 1 ((2 ^ 32 - rate / (4 * freq)) % 2 ^ 32)])) ∧
    ((32000000 : Int) / (4 * 1000) = 8000 ∧ (4294959296 : Int) = 0xFFFFE0C0 ∧
      (∀ w : World Skywalker.Globals, w.g.sky_ptr.timer_rate = 32000000 →
        ∃ w', run env (Skywalker.set_clk_freq 1000) w = some (0, w') ∧
          w'.g.sky_ptr.load = 4294959296 ∧ w'.g.sky_ptr.frequency = 1000) ∧
      (∀ w : World Pwm.Globals, w.g.pwm_data_ptr.timer_rate = 32000000 →
        ∃ w', run env (Pwm.set_pwm_freq 1000) w = some (0, w') ∧
          w'.g.pwm_data_ptr.load = 4294959296 ∧ w'.g.pwm_data_ptr.frequency = 1000)) := by
  refine ⟨?_, by decide, by decide, ?_, ?_⟩
  · intro rate freq hrate hfreq hno
    have hd : u32 (i32 (4 * freq)) = 4 * freq := by
      rw [i32_of_range (by omega) hno, u32_of_range (by omega) (by omega)]
    have hq0 : 0 ≤ rate / (4 * freq) := Int.ediv_nonneg hrate.1 (by omega)
    have hq1 : rate / (4 * freq) ≤ rate := Int.ediv_le_self _ hrate.1
    have hp : u32 (rate / (4 * freq)) = rate / (4 * freq) := u32_of_range hq0 (by omega)
    have hf : u32 freq = freq := u32_of_range (by omega) (by omega)
    have hne : ¬ (4 * freq = 0) := by omega
    constructor
    · intro w hw
      simp [Skywalker.set_clk_freq, run, Prog.bind, call, getG, modifyG, World.record, hd, hne,
        hw, hp, hf, u32_neg_period]
    · intro w hw
      simp [Pwm.set_pwm_freq, run, Prog.bind, call, getG, modifyG, World.record, hd, hne,
        hw, hp, hf, u32_neg_period]
  · intro w hw
    simp [Skywalker.set_clk_freq, run, Prog.bind, call, getG, modifyG, World.record, hw, u32,
      i32, TIMER_MAX]
  · intro w hw
    simp [Pwm.set_pwm_freq, run, Prog.bind, call, getG, modifyG, World.record, hw, u32,
      i32, TIMER_MAX]

/-- C1 at a 32 MHz clock and 1000 Hz, on a freshly loaded skywalker module whose
`timer_rate` has been read. -/
theorem C1_freq_to_load_witness :
    ((0 : Int) ≤ 32000000 ∧ (32000000 : Int) < 2 ^ 32) ∧ (0 : Int) < 1000 ∧
    (4 * 1000 : Int) < 2 ^ 31 ∧
    ∃ w', run envOk (Skywalker.set_clk_freq 1000)
        ⟨⟨7, 38, ⟨0, 0, 32000000, 0, 0⟩⟩, HW.idle, []⟩ = some (0, w') ∧
      w'.g.sky_ptr.load = (2 ^ 32 - 32000000 / (4 * 1000)) % 2 ^ 32 ∧
      w'.g.sky_ptr.frequency = 1000 ∧
      w'.trace = [] ++
        [.omap_dm_timer_set_load 7 1 ((2 ^ 32 - 32000000 / (4 * 1000)) % 2 ^ 32)] :=
  ⟨by decide, by decide, by decide,
    (((C1_freq_to_load envOk).1 32000000 1000 (by decide) (by decide) (by decide)).1
      ⟨⟨7, 38, ⟨0, 0, 32000000, 0, 0⟩⟩, HW.idle, []⟩ rfl)⟩

/-- C2. From the state left by a start routine that returned 0, for every `N` the level
variable after `N` deliveries of the interrupt is 1 (true) when `N` is even and 0 (false)
when `N` is odd, and delivery number `N + 1` issues `gpio_set_value` on pin 121 with the
level held just before it; this for every platform behaviour during each delivery. -/
theorem C2_level_alternates (K : Kernel) (env : Env) (envs : Nat → Env) (N : Nat) :
    (∀ w w1 : World Skywalker.Globals,
      run env (Skywalker.skywalker_start K) w = some (0, w1) →
      ∃ wN wN1, fire (Skywalker.timer_irq_handler K) envs N w1 = some wN ∧
        wN.g.sky_ptr.adc_clk_val = (if N % 2 = 0 then 1 else 0) ∧
        fire (Skywalker.timer_irq_handler K) envs (N + 1) w1 = some wN1 ∧
        wN1.trace = wN.trace ++
          [.omap_dm_timer_write_status w1.g.timer_ptr K.OMAP_TIMER_INT_OVERFLOW,
           .omap_dm_timer_read_status w1.g.timer_ptr,
           .gpio_set_value 121 wN.g.sky_ptr.adc_clk_val]) ∧
    (∀ w w1 : World Pwm.Globals,
      run env (Pwm.pwm_start K) w = some (0, w1) →
      ∃ wN wN1, fire (Pwm.timer_irq_handler K) envs N w1 = some wN ∧
        wN.g.clk_val = (if N % 2 = 0 then 1 else 0) ∧
        fire (Pwm.timer_irq_handler K) envs (N + 1) w1 = some wN1 ∧
        wN1.trace = wN.trace ++
          [.omap_dm_timer_write_status w1.g.timer_ptr K.OMAP_TIMER_INT_OVERFLOW,
           .omap_dm_timer_read_status w1.g.timer_ptr,
           .gpio_set_value 121 wN.g.clk_val]) := by
  constructor
  · intro w w1 h
    obtain ⟨-, -, -, hpin, hlvl, -⟩ := Skywalker.sky_start_ok h
    obtain ⟨wN, hN, -, hptr, -, hp, hl⟩ := Skywalker.sky_fire_spec K envs N w1
    rw [hlvl, lnot_iterate_one] at hl
    refine ⟨wN, _, hN, hl, by simp [fire, hN, Skywalker.sky_run_timer_irq_handler]; rfl, ?_⟩
    have hi : i32 wN.g.sky_ptr.adc_clk_val = wN.g.sky_ptr.adc_clk_val := by
      rw [hl]; split <;> decide
    simp [hptr, hp, hpin, hi]
  · intro w w1 h
    obtain ⟨-, -, -, hpin, hlvl, -⟩ := Pwm.pwm_start_ok h
    obtain ⟨wN, hN, -, hptr, -, hp, hl⟩ := Pwm.pwm_fire_spec K envs N w1
    rw [hlvl, lnot_iterate_one] at hl
    refine ⟨wN, _, hN, hl, by simp [fire, hN, Pwm.pwm_run_timer_irq_handler]; rfl, ?_⟩
    have hi : i32 wN.g.clk_val = wN.g.clk_val := by
      rw [hl]; split <;> decide
    simp [hptr, hp, hpin, hi]

/-- C2 on the sample platform, at the third delivery of the interrupt. -/
theorem C2_level_alternates_witness :
    run envOk (Skywalker.skywalker_start linuxOmap) Skywalker.fresh
      = some (0, Skywalker.started) ∧
    ∃ wN wN1, fire (Skywalker.timer_irq_handler linuxOmap) (fun _ => envOk) 2
        Skywalker.started = some wN ∧
      wN.g.sky_ptr.adc_clk_val = (if 2 % 2 = 0 then 1 else 0) ∧
      fire (Skywalker.timer_irq_handler linuxOmap) (fun _ => envOk) (2 + 1)
        Skywalker.started = some wN1 ∧
      wN1.trace = wN.trace ++
        [.omap_dm_timer_write_status Skywalker.started.g.timer_ptr
           linuxOmap.OMAP_TIMER_INT_OVERFLOW,
         .omap_dm_timer_read_status Skywalker.started.g.timer_ptr,
         .gpio_set_value 121 wN.g.sky_ptr.adc_clk_val] :=
  ⟨rfl, (C2_level_alternates linuxOmap envOk (fun _ => envOk) 2).1
    Skywalker.fresh Skywalker.started rfl⟩

/-- C3 fails: on a platform where the timer and the interrupt line are obtained and GPIO 121
is reported invalid, `skywalker_start` returns 0, and on return the module holds timer 7 and
has its handler registered on line 38; the calls it issued include neither `free_irq` nor
`omap_dm_timer_free`. -/
theorem C3_counterexample :
    (envOk.answering (.gpio_is_valid 121) 0) (.gpio_is_valid 121) = 0 ∧
    ∃ w', run (envOk.answering (.gpio_is_valid 121) 0)
        (Skywalker.skywalker_start linuxOmap) Skywalker.fresh = some (0, w') ∧
      w'.hw.timers = [7] ∧ w'.hw.irqs = [38] ∧ w'.hw.pins = [] ∧
      w'.trace =
        [.omap_dm_timer_request, .omap_dm_timer_set_source 7 0,
         .omap_dm_timer_set_prescaler 7 0, .omap_dm_timer_get_irq 7,
         .request_irq 38 544 "skywalker", .omap_dm_timer_get_fclk 7, .clk_get_rate 9,
         .omap_dm_timer_set_load 7 1 4294959296, .omap_dm_timer_set_int_enable 7 2,
         .omap_dm_timer_start 7, .gpio_is_valid 121] :=
  ⟨by decide, _, rfl, rfl, rfl, rfl, rfl⟩

/-- C3, amended. For every platform behaviour in which Peripheral Binding succeeds (timer
`t` obtained, clock source set, handler registered on line `irq`) and Pin Binding fails
(pin 121 invalid, request refused, or output direction rejected), the start routine
returns having issued neither `free_irq` nor `omap_dm_timer_free`: the module still holds
`t` and its handler is still registered on `irq`. -/
theorem C3_pin_failure_keeps_timer_and_irq (K : Kernel) (env : Env)
    (ht : env .omap_dm_timer_request ≠ 0)
    (hsrc : env (.omap_dm_timer_set_source (env .omap_dm_timer_request)
      K.OMAP_TIMER_SRC_SYS_CLK) = 0) :
    (env (.request_irq (u32 (env (.omap_dm_timer_get_irq (env .omap_dm_timer_request))))
        (Int.lor K.IRQF_DISABLED K.IRQF_TIMER) "skywalker") = 0 →
      (env (.gpio_is_valid 121) = 0 ∨ env (.gpio_request 121 "skyIRQ") ≠ 0 ∨
        env (.gpio_direction_output 121 0) ≠ 0) →
      ∀ w : World Skywalker.Globals,
        ∃ rv w' tr, run env (Skywalker.skywalker_start K) w = some (rv, w') ∧
          w'.trace = w.trace ++ tr ∧
          (∀ x, Op.free_irq x ∉ tr) ∧ (∀ x, Op.omap_dm_timer_free x ∉ tr) ∧
          w'.hw.timers = env .omap_dm_timer_request :: w.hw.timers ∧
          w'.hw.irqs = u32 (env (.omap_dm_timer_get_irq (env .omap_dm_timer_request))) :: w.hw.irqs) ∧
    (env (.request_irq (u32 (env (.omap_dm_timer_get_irq (env .omap_dm_timer_request))))
        (Int.lor K.IRQF_DISABLED K.IRQF_TIMER) "pwm") = 0 →
      (env (.gpio_is_valid 121) = 0 ∨ env (.gpio_request 121 "pwmIRQ") ≠ 0 ∨
        env (.gpio_direction_output 121 0) ≠ 0) →
      ∀ w : World Pwm.Globals,
        ∃ rv w' tr, run env (Pwm.pwm_start K) w = some (rv, w') ∧
          w'.trace = w.trace ++ tr ∧
          (∀ x, Op.free_irq x ∉ tr) ∧ (∀ x, Op.omap_dm_timer_free x ∉ tr) ∧
          w'.hw.timers = env .omap_dm_timer_request :: w.hw.timers ∧
          w'.hw.irqs = u32 (env (.omap_dm_timer_get_irq (env .omap_dm_timer_request))) :: w.hw.irqs) := by
  constructor
  · intro hirq _ w
    by_cases hv : env (.gpio_is_valid 121) = 0 <;>
    by_cases hr : env (.gpio_request 121 "skyIRQ") = 0 <;>
    by_cases hd : env (.gpio_direction_output 121 0) = 0 <;>
    simp [Skywalker.skywalker_start, Skywalker.set_clk_freq, Skywalker.gpio_setup_pin, run,
      Prog.bind, call, getG, modifyG, World.record, HW.apply, ht, hsrc, hirq, hv, hr, hd,
      u32_i32_4000, i32_121] <;>
    exact ⟨_, _, ⟨rfl, rfl⟩, _, rfl, by simp⟩
  · intro hirq _ w
    by_cases hv : env (.gpio_is_valid 121) = 0 <;>
    by_cases hr : env (.gpio_request 121 "pwmIRQ") = 0 <;>
    by_cases hd : env (.gpio_direction_output 121 0) = 0 <;>
    simp [Pwm.pwm_start, Pwm.set_pwm_freq, Pwm.pwm_setup_pin, Pwm.set_pwm_dutycycle, run,
      Prog.bind, call, getG, modifyG, World.record, HW.apply, ht, hsrc, hirq, hv, hr, hd,
      u32_i32_4000, i32_121] <;>
    exact ⟨_, _, ⟨rfl, rfl⟩, _, rfl, by simp⟩

/-- C3, amended, on the platform of the counterexample. -/
theorem C3_pin_failure_keeps_timer_and_irq_witness :
    (envOk.answering (.gpio_is_valid 121) 0) .omap_dm_timer_request ≠ 0 ∧
    (envOk.answering (.gpio_is_valid 121) 0)
      (.omap_dm_timer_set_source 7 linuxOmap.OMAP_TIMER_SRC_SYS_CLK) = 0 ∧
    (envOk.answering (.gpio_is_valid 121) 0) (.request_irq 38 544 "skywalker") = 0 ∧
    (envOk.answering (.gpio_is_valid 121) 0) (.gpio_is_valid 121) = 0 ∧
    ∃ rv w' tr, run (envOk.answering (.gpio_is_valid 121) 0)
        (Skywalker.skywalker_start linuxOmap) Skywalker.fresh = some (rv, w') ∧
      w'.trace = Skywalker.fresh.trace ++ tr ∧
      (∀ x, Op.free_irq x ∉ tr) ∧ (∀ x, Op.omap_dm_timer_free x ∉ tr) ∧
      w'.hw.timers = 7 :: Skywalker.fresh.hw.timers ∧
      w'.hw.irqs = 38 :: Skywalker.fresh.hw.irqs :=
  ⟨by decide, by decide, by decide, by decide,
    (C3_pin_failure_keeps_timer_and_irq linuxOmap (envOk.answering (.gpio_is_valid 121) 0)
      (by decide) (by decide)).1 (by decide) (Or.inl (by decide)) Skywalker.fresh⟩

/-- C4 fails: on a platform that hands out timer 7 and then rejects the clock source,
`skywalker_start` returns the error -22 after two kernel calls, still holding the timer. -/
theorem C4_counterexample :
    ∃ w', run (envOk.answering (.omap_dm_timer_set_source 7 0) (-22))
        (Skywalker.skywalker_start linuxOmap) Skywalker.fresh = some (-22, w') ∧
      w'.hw.timers = [7] ∧
      w'.trace = [.omap_dm_timer_request, .omap_dm_timer_set_source 7 0] :=
  ⟨_, rfl, rfl, rfl⟩

/-- C4, amended. For every platform behaviour in which the timer request returns an
instance `t` and then the clock source is rejected or `request_irq` fails, the start routine
returns a non-zero value, has issued no `omap_dm_timer_free`, and the module still holds
`t`, which `timer_ptr` points to. -/
theorem C4_binding_failure_keeps_timer (K : Kernel) (env : Env)
    (ht : env .omap_dm_timer_request ≠ 0) :
    (env (.omap_dm_timer_set_source (env .omap_dm_timer_request) K.OMAP_TIMER_SRC_SYS_CLK) ≠ 0 ∨
      env (.request_irq (u32 (env (.omap_dm_timer_get_irq (env .omap_dm_timer_request))))
        (Int.lor K.IRQF_DISABLED K.IRQF_TIMER) "skywalker") ≠ 0 →
      ∀ w : World Skywalker.Globals,
        ∃ rv w' tr, run env (Skywalker.skywalker_start K) w = some (rv, w') ∧ rv ≠ 0 ∧
          w'.trace = w.trace ++ tr ∧ (∀ x, Op.omap_dm_timer_free x ∉ tr) ∧
          w'.g.timer_ptr = env .omap_dm_timer_request ∧
          w'.hw.timers = env .omap_dm_timer_request :: w.hw.timers) ∧
    (env (.omap_dm_timer_set_source (env .omap_dm_timer_request) K.OMAP_TIMER_SRC_SYS_CLK) ≠ 0 ∨
      env (.request_irq (u32 (env (.omap_dm_timer_get_irq (env .omap_dm_timer_request))))
        (Int.lor K.IRQF_DISABLED K.IRQF_TIMER) "pwm") ≠ 0 →
      ∀ w : World Pwm.Globals,
        ∃ rv w' tr, run env (Pwm.pwm_start K) w = some (rv, w') ∧ rv ≠ 0 ∧
          w'.trace = w.trace ++ tr ∧ (∀ x, Op.omap_dm_timer_free x ∉ tr) ∧
          w'.g.timer_ptr = env .omap_dm_timer_request ∧
          w'.hw.timers = env .omap_dm_timer_request :: w.hw.timers) := by
  constructor
  · intro h w
    by_cases h2 : env (.omap_dm_timer_set_source (env .omap_dm_timer_request)
        K.OMAP_TIMER_SRC_SYS_CLK) = 0
    · have h3 := h.resolve_left (not_not.mpr h2)
      simp [Skywalker.skywalker_start, run, Prog.bind, call, getG, modifyG, World.record,
        HW.apply, ht, h2, h3]
      exact ⟨_, _, ⟨rfl, rfl⟩, h3, _, rfl, by simp⟩
    · simp [Skywalker.skywalker_start, run, Prog.bind, call, getG, modifyG, World.record,
        HW.apply, ht, h2]
      exact ⟨_, _, ⟨rfl, rfl⟩, h2, _, rfl, by simp⟩
  · intro h w
    by_cases h2 : env (.omap_dm_timer_set_source (env .omap_dm_timer_request)
        K.OMAP_TIMER_SRC_SYS_CLK) = 0
    · have h3 := h.resolve_left (not_not.mpr h2)
      simp [Pwm.pwm_start, run, Prog.bind, call, getG, modifyG, World.record,
        HW.apply, ht, h2, h3]
      exact ⟨_, _, ⟨rfl, rfl⟩, h3, _, rfl, by simp⟩
    · simp [Pwm.pwm_start, run, Prog.bind, call, getG, modifyG, World.record,
        HW.apply, ht, h2]
      exact ⟨_, _, ⟨rfl, rfl⟩, h2, _, rfl, by simp⟩

/-- C4, amended, on the platform of the counterexample. -/
theorem C4_binding_failure_keeps_timer_witness :
    (envOk.answering (.omap_dm_timer_set_source 7 0) (-22)) .omap_dm_timer_request ≠ 0 ∧
    (envOk.answering (.omap_dm_timer_set_source 7 0) (-22))
      (.omap_dm_timer_set_source 7 linuxOmap.OMAP_TIMER_SRC_SYS_CLK) ≠ 0 ∧
    ∃ rv w' tr, run (envOk.answering (.omap_dm_timer_set_source 7 0) (-22))
        (Skywalker.skywalker_start linuxOmap) Skywalker.fresh = some (rv, w') ∧ rv ≠ 0 ∧
      w'.trace = Skywalker.fresh.trace ++ tr ∧ (∀ x, Op.omap_dm_timer_free x ∉ tr) ∧
      w'.g.timer_ptr = (envOk.answering (.omap_dm_timer_set_source 7 0) (-22))
        .omap_dm_timer_request ∧
      w'.hw.timers = (envOk.answering (.omap_dm_timer_set_source 7 0) (-22))
        .omap_dm_timer_request :: Skywalker.fresh.hw.timers :=
  ⟨by decide, by decide,
    (C4_binding_failure_keeps_timer linuxOmap
      (envOk.answering (.omap_dm_timer_set_source 7 0) (-22)) (by decide)).1
      (Or.inl (by decide)) Skywalker.fresh⟩

/-- C6. When the timer request returns `NULL`, the start routine returns -1 and the request
is the only kernel call it has issued; the data structure of the driver (frequency, load,
pin, rate and level), `timer_irq` and what the module holds are as before. -/
theorem C6_no_timer_no_effects (K : Kernel) (env : Env)
    (hnone : env .omap_dm_timer_request = 0) :
    (∀ w : World Skywalker.Globals,
      ∃ w', run env (Skywalker.skywalker_start K) w = some (-1, w') ∧
        w'.trace = w.trace ++ [.omap_dm_timer_request] ∧
        w'.g.sky_ptr = w.g.sky_ptr ∧ w'.g.timer_irq = w.g.timer_irq ∧ w'.hw = w.hw) ∧
    (∀ w : World Pwm.Globals,
      ∃ w', run env (Pwm.pwm_start K) w = some (-1, w') ∧
        w'.trace = w.trace ++ [.omap_dm_timer_request] ∧
        w'.g.pwm_data_ptr = w.g.pwm_data_ptr ∧ w'.g.clk_val = w.g.clk_val ∧
        w'.g.timer_irq = w.g.timer_irq ∧ w'.hw = w.hw) := by
  constructor
  · intro w
    simp [Skywalker.skywalker_start, run, Prog.bind, call, getG, modifyG, World.record,
      HW.apply, hnone]
  · intro w
    simp [Pwm.pwm_start, run, Prog.bind, call, getG, modifyG, World.record, HW.apply, hnone]

/-- C6 on the sample platform with no timer instance left. -/
theorem C6_no_timer_no_effects_witness :
    (envOk.answering .omap_dm_timer_request 0) .omap_dm_timer_request = 0 ∧
    ∃ w', run (envOk.answering .omap_dm_timer_request 0)
        (Skywalker.skywalker_start linuxOmap) Skywalker.fresh = some (-1, w') ∧
      w'.trace = Skywalker.fresh.trace ++ [.omap_dm_timer_request] ∧
      w'.g.sky_ptr = Skywalker.fresh.g.sky_ptr ∧
      w'.g.timer_irq = Skywalker.fresh.g.timer_irq ∧ w'.hw = Skywalker.fresh.hw :=
  ⟨by decide,
    (C6_no_timer_no_effects linuxOmap (envOk.answering .omap_dm_timer_request 0)
      (by decide)).1 Skywalker.fresh⟩

/-- C7. After a start routine that returned 0 on an idle platform, any number `N` of
deliveries of the interrupt and then the end routine, the module holds no timer instance,
no interrupt line and no GPIO line; what is left does not depend on `N` nor on how the
platform answered meanwhile. -/
theorem C7_stop_releases_all (K : Kernel) (env : Env) :
    (∀ w w1 : World Skywalker.Globals, w.hw = HW.idle →
      run env (Skywalker.skywalker_start K) w = some (0, w1) →
      ∃ left : HW, left.timers = [] ∧ left.irqs = [] ∧ left.pins = [] ∧
        ∀ (N : Nat) (envs : Nat → Env) (env' : Env),
          ∃ wN w2, fire (Skywalker.timer_irq_handler K) envs N w1 = some wN ∧
            run env' Skywalker.skywalker_end wN = some ((), w2) ∧ w2.hw = left) ∧
    (∀ w w1 : World Pwm.Globals, w.hw = HW.idle →
      run env (Pwm.pwm_start K) w = some (0, w1) →
      ∃ left : HW, left.timers = [] ∧ left.irqs = [] ∧ left.pins = [] ∧
        ∀ (N : Nat) (envs : Nat → Env) (env' : Env),
          ∃ wN w2, fire (Pwm.timer_irq_handler K) envs N w1 = some wN ∧
            run env' Pwm.pwm_end wN = some ((), w2) ∧ w2.hw = left) := by
  constructor
  · intro w w1 hidle h
    obtain ⟨-, hptr, hirq, hpin, -, ht, hi, hp⟩ := Skywalker.sky_start_ok h
    rw [hidle] at ht hi hp
    simp only [HW.idle] at ht hi hp
    refine ⟨{ timers := w1.hw.timers.filter (· ≠ w1.g.timer_ptr)
              irqs := w1.hw.irqs.filter (· ≠ u32 w1.g.timer_irq)
              pins := w1.hw.pins.filter (· ≠ w1.g.sky_ptr.pin)
              int_enabled := w1.hw.int_enabled
              running := w1.hw.running.filter (· ≠ w1.g.timer_ptr) }, ?_, ?_, ?_, ?_⟩
    · simp [ht, hptr]
    · simp [hi, hirq]
    · rcases hp with hp | hp <;> simp [hp, hpin]
    · intro N envs env'
      obtain ⟨wN, hN, hhw, h1, h2, h3, -⟩ := Skywalker.sky_fire_spec K envs N w1
      exact ⟨wN, _, hN, Skywalker.run_skywalker_end env' wN, by simp [hhw, h1, h2, h3]⟩
  · intro w w1 hidle h
    obtain ⟨-, hptr, hirq, hpin, -, ht, hi, hp⟩ := Pwm.pwm_start_ok h
    rw [hidle] at ht hi hp
    simp only [HW.idle] at ht hi hp
    refine ⟨{ timers := w1.hw.timers.filter (· ≠ w1.g.timer_ptr)
              irqs := w1.hw.irqs.filter (· ≠ u32 w1.g.timer_irq)
              pins := w1.hw.pins.filter (· ≠ w1.g.pwm_data_ptr.pin)
              int_enabled := w1.hw.int_enabled
              running := w1.hw.running.filter (· ≠ w1.g.timer_ptr) }, ?_, ?_, ?_, ?_⟩
    · simp [ht, hptr]
    · simp [hi, hirq]
    · rcases hp with hp | hp <;> simp [hp, hpin]
    · intro N envs env'
      obtain ⟨wN, hN, hhw, h1, h2, h3, -⟩ := Pwm.pwm_fire_spec K envs N w1
      exact ⟨wN, _, hN, Pwm.run_pwm_end env' wN, by simp [hhw, h1, h2, h3]⟩

/-- C7 on the sample platform. -/
theorem C7_stop_releases_all_witness :
    Skywalker.fresh.hw = HW.idle ∧
    run envOk (Skywalker.skywalker_start linuxOmap) Skywalker.fresh
      = some (0, Skywalker.started) ∧
    ∃ left : HW, left.timers = [] ∧ left.irqs = [] ∧ left.pins = [] ∧
      ∀ (N : Nat) (envs : Nat → Env) (env' : Env),
        ∃ wN w2, fire (Skywalker.timer_irq_handler linuxOmap) envs N Skywalker.started
            = some wN ∧
          run env' Skywalker.skywalker_end wN = some ((), w2) ∧ w2.hw = left :=
  ⟨rfl, rfl, (C7_stop_releases_all linuxOmap envOk).1 Skywalker.fresh Skywalker.started rfl rfl⟩

/-- C8. In every state and for every platform behaviour, the end routine issues exactly
four kernel calls, in this order: stop the timer, free the interrupt line stored in
`timer_irq`, free the timer instance, free the stored pin; it leaves the static data as
it is. -/
theorem C8_stop_four_calls (env : Env) :
    (∀ w : World Skywalker.Globals,
      ∃ w', run env Skywalker.skywalker_end w = some ((), w') ∧ w'.g = w.g ∧
        w'.trace = w.trace ++
          [.omap_dm_timer_stop w.g.timer_ptr, .free_irq (u32 w.g.timer_irq),
           .omap_dm_timer_free w.g.timer_ptr, .gpio_free w.g.sky_ptr.pin]) ∧
    (∀ w : World Pwm.Globals,
      ∃ w', run env Pwm.pwm_end w = some ((), w') ∧ w'.g = w.g ∧
        w'.trace = w.trace ++
          [.omap_dm_timer_stop w.g.timer_ptr, .free_irq (u32 w.g.timer_irq),
           .omap_dm_timer_free w.g.timer_ptr, .gpio_free w.g.pwm_data_ptr.pin]) :=
  ⟨fun w => ⟨_, Skywalker.run_skywalker_end env w, rfl, rfl⟩,
   fun w => ⟨_, Pwm.run_pwm_end env w, rfl, rfl⟩⟩

/-- C9 fails: on a platform that grants GPIO 121 and then rejects the output direction,
`gpio_setup_pin` returns -1 with the line still claimed and no `gpio_free` issued. -/
theorem C9_counterexample :
    ∃ w', run (envOk.answering (.gpio_direction_output 121 0) (-22))
        (Skywalker.gpio_setup_pin 121) Skywalker.fresh = some (-1, w') ∧
      (-1 : Int) ≠ 0 ∧ 121 ∈ w'.hw.pins ∧
      w'.trace = [.gpio_is_valid 121, .gpio_request 121 "skyIRQ",
        .gpio_direction_output 121 0] :=
  ⟨_, rfl, by decide, by decide, rfl⟩

/-- C9, amended. For every pin number and platform behaviour, Pin Binding returns, and when
it returns failure the static data (so the stored pin) is unchanged and no `gpio_free` has
been issued: if the number is invalid or the request is refused the module holds what it
held before, and if the request is granted but the output direction is rejected the line
stays claimed. -/
theorem C9_pin_binding_failure (env : Env) (n : Int) :
    (∀ w : World Skywalker.Globals,
      ∃ rv w' tr, run env (Skywalker.gpio_setup_pin n) w = some (rv, w') ∧
        w'.trace = w.trace ++ tr ∧
        (rv ≠ 0 → w'.g = w.g ∧ (∀ m, Op.gpio_free m ∉ tr) ∧
          (env (.gpio_is_valid (i32 n)) = 0 ∨ env (.gpio_request n "skyIRQ") ≠ 0 →
            w'.hw = w.hw) ∧
          (env (.gpio_is_valid (i32 n)) ≠ 0 → env (.gpio_request n "skyIRQ") = 0 →
            w'.hw.pins = n :: w.hw.pins))) ∧
    (∀ w : World Pwm.Globals,
      ∃ rv w' tr, run env (Pwm.pwm_setup_pin n) w = some (rv, w') ∧
        w'.trace = w.trace ++ tr ∧
        (rv ≠ 0 → w'.g = w.g ∧ (∀ m, Op.gpio_free m ∉ tr) ∧
          (env (.gpio_is_valid (i32 n)) = 0 ∨ env (.gpio_request n "pwmIRQ") ≠ 0 →
            w'.hw = w.hw) ∧
          (env (.gpio_is_valid (i32 n)) ≠ 0 → env (.gpio_request n "pwmIRQ") = 0 →
            w'.hw.pins = n :: w.hw.pins))) := by
  constructor
  · intro w
    by_cases hv : env (.gpio_is_valid (i32 n)) = 0 <;>
    by_cases hr : env (.gpio_request n "skyIRQ") = 0 <;>
    by_cases hd : env (.gpio_direction_output n 0) = 0 <;>
    simp [Skywalker.gpio_setup_pin, run, Prog.bind, call, modifyG, World.record, HW.apply,
      hv, hr, hd] <;>
    exact ⟨_, _, ⟨rfl, rfl⟩, _, rfl, by simp⟩
  · intro w
    by_cases hv : env (.gpio_is_valid (i32 n)) = 0 <;>
    by_cases hr : env (.gpio_request n "pwmIRQ") = 0 <;>
    by_cases hd : env (.gpio_direction_output n 0) = 0 <;>
    simp [Pwm.pwm_setup_pin, run, Prog.bind, call, modifyG, World.record, HW.apply,
      hv, hr, hd] <;>
    exact ⟨_, _, ⟨rfl, rfl⟩, _, rfl, by simp⟩

/-- C9, amended, on the platform of the counterexample, where Pin Binding returns -1. -/
theorem C9_pin_binding_failure_witness :
    (∃ w', run (envOk.answering (.gpio_direction_output 121 0) (-22))
        (Skywalker.gpio_setup_pin 121) Skywalker.fresh = some (-1, w')) ∧
    ∃ rv w' tr, run (envOk.answering (.gpio_direction_output 121 0) (-22))
        (Skywalker.gpio_setup_pin 121) Skywalker.fresh = some (rv, w') ∧
      w'.trace = Skywalker.fresh.trace ++ tr ∧
      (rv ≠ 0 → w'.g = Skywalker.fresh.g ∧ (∀ m, Op.gpio_free m ∉ tr) ∧
        ((envOk.answering (.gpio_direction_output 121 0) (-22)) (.gpio_is_valid (i32 121)) = 0 ∨
          (envOk.answering (.gpio_direction_output 121 0) (-22)) (.gpio_request 121 "skyIRQ") ≠ 0
            → w'.hw = Skywalker.fresh.hw) ∧
        ((envOk.answering (.gpio_direction_output 121 0) (-22)) (.gpio_is_valid (i32 121)) ≠ 0 →
          (envOk.answering (.gpio_direction_output 121 0) (-22)) (.gpio_request 121 "skyIRQ") = 0
            → w'.hw.pins = 121 :: Skywalker.fresh.hw.pins)) :=
  ⟨⟨_, rfl⟩,
    (C9_pin_binding_failure (envOk.answering (.gpio_direction_output 121 0) (-22)) 121).1
      Skywalker.fresh⟩

/-- C10. In every state and for every platform behaviour, one run of the interrupt handler
issues exactly three kernel calls, in this order: write the overflow bit to the status
register of the bound timer, read the status register, set the bound pin to the current
level; it then negates the level, returns `IRQ_HANDLED`, and leaves frequency, load, pin,
timer rate, `timer_ptr`, `timer_irq` and what the module holds unchanged. -/
theorem C10_handler_three_calls (K : Kernel) (env : Env) :
    (∀ w : World Skywalker.Globals,
      ∃ w', run env (Skywalker.timer_irq_handler K) w = some (K.IRQ_HANDLED, w') ∧
        w'.trace = w.trace ++
          [.omap_dm_timer_write_status w.g.timer_ptr K.OMAP_TIMER_INT_OVERFLOW,
           .omap_dm_timer_read_status w.g.timer_ptr,
           .gpio_set_value w.g.sky_ptr.pin (i32 w.g.sky_ptr.adc_clk_val)] ∧
        w'.g.sky_ptr.adc_clk_val = lnot w.g.sky_ptr.adc_clk_val ∧
        (w'.g.sky_ptr.adc_clk_val = 0 ↔ w.g.sky_ptr.adc_clk_val ≠ 0) ∧
        w'.g.sky_ptr.frequency = w.g.sky_ptr.frequency ∧ w'.g.sky_ptr.load = w.g.sky_ptr.load ∧
        w'.g.sky_ptr.pin = w.g.sky_ptr.pin ∧ w'.g.sky_ptr.timer_rate = w.g.sky_ptr.timer_rate ∧
        w'.g.timer_ptr = w.g.timer_ptr ∧ w'.g.timer_irq = w.g.timer_irq ∧ w'.hw = w.hw) ∧
    (∀ w : World Pwm.Globals,
      ∃ w', run env (Pwm.timer_irq_handler K) w = some (K.IRQ_HANDLED, w') ∧
        w'.trace = w.trace ++
          [.omap_dm_timer_write_status w.g.timer_ptr K.OMAP_TIMER_INT_OVERFLOW,
           .omap_dm_timer_read_status w.g.timer_ptr,
           .gpio_set_value w.g.pwm_data_ptr.pin (i32 w.g.clk_val)] ∧
        w'.g.clk_val = lnot w.g.clk_val ∧
        (w'.g.clk_val = 0 ↔ w.g.clk_val ≠ 0) ∧
        w'.g.pwm_data_ptr = w.g.pwm_data_ptr ∧
        w'.g.timer_ptr = w.g.timer_ptr ∧ w'.g.timer_irq = w.g.timer_irq ∧ w'.hw = w.hw) := by
  constructor
  · intro w
    refine ⟨_, Skywalker.sky_run_timer_irq_handler K env w, rfl, rfl, ?_, rfl, rfl, rfl, rfl, rfl,
      rfl, rfl⟩
    by_cases h : w.g.sky_ptr.adc_clk_val = 0 <;> simp [lnot, h]
  · intro w
    refine ⟨_, Pwm.pwm_run_timer_irq_handler K env w, rfl, rfl, ?_, rfl, rfl, rfl, rfl⟩
    by_cases h : w.g.clk_val = 0 <;> simp [lnot, h]

end UpsideDriver
